import Mathlib

/-!
Verification of the unit-aware parameter algebra and growth-projection engine of
the `technology-data` repository, as a shallow embedding in Lean 4.

The embedding follows the Python sources:
  * `technologydata/utils/units.py`   — currency-token extraction (`extract_currency_units`,
    `CURRENCY_UNIT_PATTERN = \b([A-Z]{3})_(\d{4})\b`);
  * `technologydata/parameter.py`     — the `Parameter` value type with its constructor
    check, `to`, `__add__`, `__sub__`, `__mul__`, `__truediv__`;
  * `src/technologydata/technologies/growth_models.py` — `GrowthModel.project`,
    `GrowthModel.fit`, `LinearGrowth`, `LogisticGrowth`;
  * `src/technologydata/technology_collection.py` — `TechnologyCollection.project`'s
    `keep_remaining` fill-policy dispatch.

Modelling conventions:
  * Python `float` magnitudes are modelled as `ℚ` (and as `ℝ` where `exp` is needed);
  * Python exceptions are values of the `PyError` inductive, fallible code returns `Except`;
  * pint unit objects are modelled post-canonicalisation: a physical unit is its
    conversion factor to base units, its dimension vector and its atomic composition;
    carrier and heating-value units (separate pint registries `creg`/`hvreg`) are
    normalised exponent vectors over atom names;
  * the authoritative 3-letter currency-code set (fetched from an external country-data
    service and cached) is an explicit parameter `validCodes` of the functions that
    consult it.
-/

/-- Python exception taxonomy relevant to the embedded code. -/
inductive PyError where
  | valueError (msg : String)
  | typeError (msg : String)
  | keyError (msg : String)
  | notImplementedError (msg : String)
  | dimensionalityError (msg : String)
  | undefinedUnitError (msg : String)
  deriving Repr, DecidableEq

/-! ### Currency-token scanning (`technologydata/utils/units.py`)

`CURRENCY_UNIT_PATTERN = re.compile(r"\b(?P<cu_iso3>[A-Z]{3})_(?P<year>\d{4})\b")`
and `re.findall` over it.  Word characters are `[A-Za-z0-9_]`; `\b` holds at a
position where exactly one side is a word character.  Since the pattern starts and
ends with word characters, the leading `\b` holds iff the previous character is not
a word character (or the match is at the start), and the trailing `\b` holds iff the
next character is not a word character (or the match ends the string). -/

/-- A regex word character (`\w` over ASCII input): letters, digits, underscore. -/
def isWordChar (c : Char) : Bool :=
  c.isAlpha || c.isDigit || c = '_'

/-- Attempt to match `[A-Z]{3}_[0-9]{4}\b` at the head of the character list,
returning the code group, the year group and the rest of the input. -/
def tryCurrencyMatch : List Char → Option (String × String × List Char)
  | c1 :: c2 :: c3 :: u :: d1 :: d2 :: d3 :: d4 :: rest =>
    if c1.isUpper && c2.isUpper && c3.isUpper && u = '_'
        && d1.isDigit && d2.isDigit && d3.isDigit && d4.isDigit
        && (match rest with
            | [] => true
            | r :: _ => !isWordChar r) then
      some (⟨[c1, c2, c3]⟩, ⟨[d1, d2, d3, d4]⟩, rest)
    else
      none
  | _ => none

/-- Fuel-indexed scanner implementing `re.findall` for the currency pattern:
scan left to right; a match may only start where the previous character is not a
word character; matches are non-overlapping and scanning resumes after a match.
The fuel is at least the input length, so it never runs out before the input does. -/
def findCurrencyAux : Nat → Bool → List Char → List (String × String)
  | 0, _, _ => []
  | _ + 1, _, [] => []
  | fuel + 1, prevWord, c :: rest =>
    if !prevWord then
      match tryCurrencyMatch (c :: rest) with
      | some (code, year, rest2) => (code, year) :: findCurrencyAux fuel true rest2
      | none => findCurrencyAux fuel (isWordChar c) rest
    else
      findCurrencyAux fuel (isWordChar c) rest

/-- Model of `CURRENCY_UNIT_PATTERN.findall(units)`: all word-bounded `CODE_YYYY` matches,
as `(code, year)` group pairs, in order of appearance. -/
def currencyFindall (units : String) : List (String × String) :=
  findCurrencyAux units.data.length false units.data

/-- Render a `(code, year)` match back to its `"{code}_{year}"` token. -/
def currencyToken (m : String × String) : String :=
  m.1 ++ "_" ++ m.2

/-- Embedding of `extract_currency_units(units)` from `technologydata/utils/units.py`.

The authoritative currency-code set (`get_iso3_to_currency_codes().values()`, an
external data source) is passed in as `validCodes`.  Returns the matched currency
tokens in order of appearance; if some matched code is not in `validCodes`, raises
`ValueError` whose message lists all matched tokens with invalid codes (the error
payload here is that list of offending tokens, which determines the message). -/
def extract_currency_units (validCodes : List String) (units : String) :
    Except (List String) (List String) :=
  -- `matches = CURRENCY_UNIT_PATTERN.findall(units)`; empty → []
  if (currencyFindall units).isEmpty then
    .ok []
  -- `invalid_codes = currency_codes - all_currency_codes`; none → the tokens in order
  else if ((currencyFindall units).filter (fun m => !validCodes.contains m.1)).isEmpty then
    .ok ((currencyFindall units).map currencyToken)
  -- otherwise ValueError listing the matches with invalid codes
  else
    .error (((currencyFindall units).filter (fun m => !validCodes.contains m.1)).map currencyToken)

/-! ### Unit algebra

pint unit expressions, post-canonicalisation.  An *atom vector* records the atomic
units of an expression with their integer exponents, kept sorted by name with zero
exponents dropped (pint's canonical form).  Carrier units (`creg`) and heating-value
units (`hvreg`) are plain atom vectors; a physical unit (`ureg`) additionally has a
conversion factor to base units and a dimension vector, which is what pint consults
for unit-consistent addition and conversion. -/

/-- An atom vector: atomic unit names with integer exponents. -/
def AtomVec : Type := List (String × Int)

instance : DecidableEq AtomVec := by
  unfold AtomVec
  infer_instance

instance : Repr AtomVec := by
  unfold AtomVec
  infer_instance

/-- Lexicographic order on character lists by code point (the order pint's
canonical form sorts unit names in). -/
def charsLt : List Char → List Char → Bool
  | [], [] => false
  | [], _ :: _ => true
  | _ :: _, [] => false
  | a :: as, b :: bs =>
    if a.toNat < b.toNat then true
    else if b.toNat < a.toNat then false
    else charsLt as bs

/-- Lexicographic order on unit names. -/
def strLt (a b : String) : Bool :=
  charsLt a.data b.data

/-- Insert an atom into a sorted-by-name, duplicate-free atom vector, adding exponents. -/
def insertAtom (a : String × Int) : AtomVec → AtomVec
  | [] => [a]
  | b :: rest =>
    if a.1 = b.1 then (a.1, a.2 + b.2) :: rest
    else if strLt a.1 b.1 then a :: b :: rest
    else b :: insertAtom a rest

/-- Canonicalise an atom vector: combine duplicates, sort by name, drop zero exponents. -/
def normAtoms (l : AtomVec) : AtomVec :=
  (l.foldr insertAtom []).filter (fun a => a.2 ≠ 0)

/-- pint unit multiplication on atom vectors. -/
def atomsMul (a b : AtomVec) : AtomVec :=
  normAtoms (List.append a b)

/-- pint unit division on atom vectors. -/
def atomsDiv (a b : AtomVec) : AtomVec :=
  normAtoms (List.append a (b.map (fun p => (p.1, -p.2))))

/-- A carrier unit from the dedicated carrier registry `creg` (`carriers.txt`). -/
def CarrierUnit : Type := AtomVec

instance : DecidableEq CarrierUnit := by
  unfold CarrierUnit
  infer_instance

/-- A heating-value unit from the dedicated registry `hvreg` (`heating_values.txt`). -/
def HeatingValueUnit : Type := AtomVec

instance : DecidableEq HeatingValueUnit := by
  unfold HeatingValueUnit
  infer_instance

/-- A physical pint unit (registry `ureg`): conversion factor to base units,
dimension vector, and atomic composition in canonical form.  Currency-year tokens
are atoms of their own currency dimension (lazily defined by
`ensure_currency_is_unit`; their placeholder conversion factors are never used
because `to` refuses currency conversion). -/
structure PintUnit where
  factor : ℚ
  dims : AtomVec
  atoms : AtomVec
  deriving DecidableEq

/-- The dimensionless unit (`ureg.Quantity(magnitude)` with no units). -/
def PintUnit.dimensionless : PintUnit := ⟨1, [], []⟩

/-- A pint quantity: a magnitude together with its unit. -/
structure PintQuantity where
  magnitude : ℚ
  units : PintUnit
  deriving DecidableEq

/-- pint quantity addition: requires equal dimensionality, converts the right
operand into the left operand's units (`m2 * factor2 / factor1`) and keeps the
left operand's units; otherwise pint raises `DimensionalityError`. -/
def PintQuantity.add (q1 q2 : PintQuantity) : Except PyError PintQuantity :=
  if q1.units.dims = q2.units.dims then
    .ok ⟨q1.magnitude + q2.magnitude * q2.units.factor / q1.units.factor, q1.units⟩
  else
    .error (.dimensionalityError "Cannot convert between quantities of different dimensionality")

/-- pint quantity subtraction (same conversion rule as addition). -/
def PintQuantity.sub (q1 q2 : PintQuantity) : Except PyError PintQuantity :=
  if q1.units.dims = q2.units.dims then
    .ok ⟨q1.magnitude - q2.magnitude * q2.units.factor / q1.units.factor, q1.units⟩
  else
    .error (.dimensionalityError "Cannot convert between quantities of different dimensionality")

/-- pint quantity multiplication: magnitudes multiply, units combine. -/
def PintQuantity.mul (q1 q2 : PintQuantity) : PintQuantity :=
  ⟨q1.magnitude * q2.magnitude,
   ⟨q1.units.factor * q2.units.factor, atomsMul q1.units.dims q2.units.dims,
    atomsMul q1.units.atoms q2.units.atoms⟩⟩

/-- pint quantity division: magnitudes divide, units combine. -/
def PintQuantity.div (q1 q2 : PintQuantity) : PintQuantity :=
  ⟨q1.magnitude / q2.magnitude,
   ⟨q1.units.factor / q2.units.factor, atomsDiv q1.units.dims q2.units.dims,
    atomsDiv q1.units.atoms q2.units.atoms⟩⟩

/-- pint conversion `quantity.to(target)`: requires equal dimensionality and
rescales the magnitude by the ratio of conversion factors. -/
def PintQuantity.convertTo (q : PintQuantity) (target : PintUnit) : Except PyError PintQuantity :=
  if q.units.dims = target.dims then
    .ok ⟨q.magnitude * q.units.factor / target.factor, target⟩
  else
    .error (.dimensionalityError "Cannot convert between quantities of different dimensionality")

/-- Render one atom as pint renders it inside a unit string. -/
def renderAtom (a : String × Int) : String :=
  if a.2 = 1 then a.1 else a.1 ++ " ** " ++ toString a.2

/-- Render a pint unit as `str(unit)` does: positive-exponent atoms joined by
`" * "` (or `"1"`/`"dimensionless"` when there are none), then each
negative-exponent atom appended as `" / atom"`.  Only used to feed the canonical
unit string to the currency-token scanner, for which every separator is a
non-word character. -/
def renderUnit (u : PintUnit) : String :=
  let pos := u.atoms.filter (fun a => 0 < a.2)
  let neg := u.atoms.filter (fun a => a.2 < 0)
  let head :=
    if pos.isEmpty then (if neg.isEmpty then "dimensionless" else "1")
    else String.intercalate " * " (pos.map renderAtom)
  neg.foldl (fun s a => s ++ " / " ++ renderAtom (a.1, -a.2)) head

/-! ### The `Parameter` value type (`technologydata/parameter.py`)

Fields are modelled post-canonicalisation: the Python constructor rewrites
`units`, `carrier` and `heating_value` to pint's canonical strings, which stand in
bijection with the structured unit values used here.  The derived private pint
attributes (`_pint_quantity`, `_pint_carrier`, `_pint_heating_value`) equal the
fields for every successfully constructed Parameter, so they are not duplicated.
`None` fields are `Option.none`; note that a *trivial* unit (`"dimensionless"`,
the empty atom vector) is a set field, distinct from `None`, exactly as the
truthy string `"dimensionless"` is distinct from Python `None`. -/

structure Parameter where
  magnitude : ℚ
  units : Option PintUnit
  carrier : Option CarrierUnit
  heating_value : Option HeatingValueUnit
  deriving DecidableEq

instance {ε α : Type} [DecidableEq ε] [DecidableEq α] : DecidableEq (Except ε α) := fun x y =>
  match x, y with
  | .ok a, .ok b => if h : a = b then isTrue (by rw [h]) else isFalse (by simp [h])
  | .error a, .error b => if h : a = b then isTrue (by rw [h]) else isFalse (by simp [h])
  | .ok _, .error _ => isFalse (by simp)
  | .error _, .ok _ => isFalse (by simp)

/-- Derived attribute `_pint_quantity`: `ureg.Quantity(magnitude, units)` if units are set, else the
dimensionless `ureg.Quantity(magnitude)`. -/
def Parameter.pintQuantity (p : Parameter) : PintQuantity :=
  ⟨p.magnitude, p.units.getD PintUnit.dimensionless⟩

/-- The invariant `_update_pint_attributes` enforces at construction:
a heating value is only set together with a carrier. -/
def Parameter.Valid (p : Parameter) : Prop :=
  p.heating_value.isSome → p.carrier.isSome

instance (p : Parameter) : Decidable p.Valid := by
  unfold Parameter.Valid
  infer_instance

/-- The `ValueError` from `_update_pint_attributes` when a heating value is set
without a carrier. -/
def heatingValueWithoutCarrierError : PyError :=
  .valueError "Heating value cannot be set without a carrier. Please provide a valid carrier."

/-- The `ValueError` raised by `extract_currency_units` for currency-shaped tokens
with invalid codes, listing the offending tokens. -/
def invalidCurrencyError (tokens : List String) : PyError :=
  .valueError ("The following unit(s) appear to be currency units, but have invalid 3-letter currency codes: "
    ++ String.intercalate ", " tokens ++ ". ")

/-- Embedding of `ureg.ensure_currency_is_unit(units)`: runs `extract_currency_units` on the
unit string (validating all currency codes against the authoritative set) and
lazily defines any missing currency units; only the validation is observable here. -/
def ensureCurrencyIsUnit (validCodes : List String) (u : PintUnit) : Except PyError Unit :=
  match extract_currency_units validCodes (renderUnit u) with
  | .error tokens => .error (invalidCurrencyError tokens)
  | .ok _ => .ok ()

/-- The check performed by `_update_pint_attributes`: `ValueError` iff a heating
value is set without a carrier; otherwise the Parameter with the given fields. -/
def Parameter.updateCheck (magnitude : ℚ) (units : Option PintUnit)
    (carrier : Option CarrierUnit) (heating_value : Option HeatingValueUnit) :
    Except PyError Parameter :=
  if heating_value.isSome && !carrier.isSome then
    .error heatingValueWithoutCarrierError
  else
    .ok ⟨magnitude, units, carrier, heating_value⟩

/-- Constructor `Parameter(...)`: the `__init__` (canonicalisation, which on the
structured representation validates any currency tokens in `units` via
`ensure_currency_is_unit`) followed by `_update_pint_attributes` (which raises
`ValueError` iff a heating value is set without a carrier). -/
def Parameter.make (validCodes : List String) (magnitude : ℚ) (units : Option PintUnit)
    (carrier : Option CarrierUnit) (heating_value : Option HeatingValueUnit) :
    Except PyError Parameter :=
  match units with
  | some u =>
    match ensureCurrencyIsUnit validCodes u with
    | .error e => .error e
    | .ok _ => Parameter.updateCheck magnitude units carrier heating_value
  | none => Parameter.updateCheck magnitude units carrier heating_value

/-- Decorator `@refresh_pint_attributes`: re-run `_update_pint_attributes` on the current
fields before a method body (it may raise the same errors as at construction). -/
def Parameter.refreshPintAttributes (validCodes : List String) (p : Parameter) :
    Except PyError Unit :=
  match Parameter.make validCodes p.magnitude p.units p.carrier p.heating_value with
  | .error e => .error e
  | .ok _ => .ok ()

/-- Method `Parameter.to(units)`: refresh the derived pint attributes, then refuse any
change of currency composition with `NotImplementedError`, otherwise convert the
quantity and rebuild. -/
def Parameter.to (validCodes : List String) (p : Parameter) (targetUnits : PintUnit) :
    Except PyError Parameter :=
  match p.refreshPintAttributes validCodes with
  | .error e => .error e
  | .ok _ =>
    -- extract_currency_units on current and target units (each may raise ValueError,
    -- the current units' one first)
    match extract_currency_units validCodes (renderUnit p.pintQuantity.units),
          extract_currency_units validCodes (renderUnit targetUnits) with
    | .error tokens, _ => .error (invalidCurrencyError tokens)
    | .ok _, .error tokens => .error (invalidCurrencyError tokens)
    | .ok currentTokens, .ok targetTokens =>
      if currentTokens ≠ targetTokens then
        .error (.notImplementedError "Currency conversion is not supported in the `to` method. Use `change_currency` for currency conversions.")
      else
        match p.pintQuantity.convertTo targetUnits with
        | .error e => .error e
        | .ok q => Parameter.make validCodes q.magnitude (some q.units) p.carrier p.heating_value

/-- Check `_check_parameter_compatibility`: equal carriers and equal heating values,
compared as pint units (with `None` a distinct value). -/
def Parameter.checkCompatibility (p1 p2 : Parameter) : Except PyError Unit :=
  if p1.carrier ≠ p2.carrier then
    .error (.valueError "Cannot convert between parameters with different carriers.")
  else if p1.heating_value ≠ p2.heating_value then
    .error (.valueError "Cannot convert between parameters with different heating values.")
  else
    .ok ()

/-- Operator `Parameter.__add__`: compatibility check, pint quantity addition, rebuild with
the shared carrier and heating value. -/
def Parameter.add (validCodes : List String) (p1 p2 : Parameter) : Except PyError Parameter :=
  match p1.checkCompatibility p2 with
  | .error e => .error e
  | .ok _ =>
    match p1.pintQuantity.add p2.pintQuantity with
    | .error e => .error e
    | .ok q => Parameter.make validCodes q.magnitude (some q.units) p1.carrier p1.heating_value

/-- Operator `Parameter.__sub__`: compatibility check, pint quantity subtraction, rebuild
with the shared carrier and heating value. -/
def Parameter.sub (validCodes : List String) (p1 p2 : Parameter) : Except PyError Parameter :=
  match p1.checkCompatibility p2 with
  | .error e => .error e
  | .ok _ =>
    match p1.pintQuantity.sub p2.pintQuantity with
    | .error e => .error e
    | .ok q => Parameter.make validCodes q.magnitude (some q.units) p1.carrier p1.heating_value

/-- Operator `Parameter.__mul__`: only the heating values must match (`ValueError`
otherwise); quantities multiply; carriers combine multiplicatively when both are
set; `new_heating_value = self._pint_heating_value * other._pint_heating_value`
raises `TypeError` when both are Python `None`.  When the combined carrier is
`None`, the rebuild passes `str(None) = "None"` to the carrier registry, which is
an undefined carrier unit. -/
def Parameter.mul (validCodes : List String) (p1 p2 : Parameter) : Except PyError Parameter :=
  if p1.heating_value ≠ p2.heating_value then
    .error (.valueError "Cannot multiply parameters with different heating values.")
  else
    let q := p1.pintQuantity.mul p2.pintQuantity
    let newCarrier : Option CarrierUnit :=
      match p1.carrier, p2.carrier with
      | some c1, some c2 => some (atomsMul c1 c2)
      | _, _ => none
    match p1.heating_value, p2.heating_value with
    | some h1, some h2 =>
      match newCarrier with
      | some c => Parameter.make validCodes q.magnitude (some q.units) (some c) (some (atomsMul h1 h2))
      | none => .error (.undefinedUnitError "None")
    | _, _ => .error (.typeError "unsupported operand type(s) for *: NoneType")

/-- Operator `Parameter.__truediv__`: only the heating values must match (`ValueError`
otherwise); quantities divide; carriers combine divisively when both are set;
dividing two Python `None` heating values raises `TypeError`. -/
def Parameter.div (validCodes : List String) (p1 p2 : Parameter) : Except PyError Parameter :=
  if p1.heating_value ≠ p2.heating_value then
    .error (.valueError "Cannot divide parameters with different heating values.")
  else
    let q := p1.pintQuantity.div p2.pintQuantity
    let newCarrier : Option CarrierUnit :=
      match p1.carrier, p2.carrier with
      | some c1, some c2 => some (atomsDiv c1 c2)
      | _, _ => none
    match p1.heating_value, p2.heating_value with
    | some h1, some h2 =>
      match newCarrier with
      | some c => Parameter.make validCodes q.magnitude (some q.units) (some c) (some (atomsDiv h1 h2))
      | none => .error (.undefinedUnitError "None")
    | _, _ => .error (.typeError "unsupported operand type(s) for /: NoneType")

/-! ### Growth models (`src/technologydata/technologies/growth_models.py`)

A `GrowthModel` holds the named parameters of its curve function (in signature
order, each either fixed or still `None`) and the accreted `(year, value)` data
points.  The curve's closed form is passed explicitly where needed (the Python
class discovers it by introspecting `self.function`'s signature). -/

structure GrowthModel where
  /-- The function's named parameters besides `x`, in signature order, with the
  current field value (`none` = still free, to be fitted). -/
  params : List (String × Option ℚ)
  /-- Data points `(x, y)` for fitting, where `x` indicates a year. -/
  data_points : List (Int × ℚ)
  deriving DecidableEq, Repr

/-- Property `model_parameters`: all parameter names of the curve function besides `x`. -/
def GrowthModel.model_parameters (m : GrowthModel) : List String :=
  m.params.map Prod.fst

/-- Property `provided_parameters`: the model parameters whose fields are not `None`. -/
def GrowthModel.provided_parameters (m : GrowthModel) : List String :=
  (m.params.filter (fun p => p.2.isSome)).map Prod.fst

/-- Property `missing_parameters`: model parameters not among the provided ones. -/
def GrowthModel.missing_parameters (m : GrowthModel) : List String :=
  m.model_parameters.filter (fun p => !m.provided_parameters.contains p)

/-- The keyword arguments `model_dump(include=provided_parameters)` passes to the
curve function: each provided parameter's value (total function; free parameters
never reach the curve because `project` checks them first). -/
def GrowthModel.resolved (m : GrowthModel) : String → ℚ :=
  fun n => ((m.params.lookup n).bind id).getD 0

/-- The `ValueError` from `GrowthModel.project`, naming the missing parameters. -/
def missingParamsError (missing : List String) : PyError :=
  .valueError ("Cannot project. The following parameters have not been specified yet and are missing: ["
    ++ String.intercalate ", " missing ++ "].")

/-- Method `GrowthModel.project(to_year)`: fails with `ValueError` naming the missing
parameters if any remain; otherwise evaluates the curve function `f` at `to_year`
with the resolved parameter set.  Pure: no state is read or written beyond `m`. -/
def GrowthModel.project (f : Int → (String → ℚ) → ℚ) (m : GrowthModel) (to_year : Int) :
    Except PyError ℚ :=
  if m.missing_parameters.length > 0 then
    .error (missingParamsError m.missing_parameters)
  else
    .ok (f to_year m.resolved)

/-- Outcome of `GrowthModel.fit`: either the informational no-op returning `self`,
an exception, or the handoff to `scipy.optimize.curve_fit` (an external nonlinear
least-squares routine) with the initial-guess vector for the missing parameters. -/
inductive FitResult where
  | unchanged (m : GrowthModel)
  | failure (e : PyError)
  | startFit (m : GrowthModel) (p0 : List ℚ)
  deriving DecidableEq, Repr

/-- Look up an initial guess for every missing parameter in the user-supplied
`p0` dict (`[p0[param] for param in self.missing_parameters]`); a miss is a
Python `KeyError`. -/
def lookupGuesses (d : List (String × ℚ)) : List String → Option (List ℚ)
  | [] => some []
  | n :: rest =>
    match d.lookup n with
    | some v => (lookupGuesses d rest).map (fun l => v :: l)
    | none => none

/-- Method `GrowthModel.fit(p0=None)`: no-op returning `self` if every parameter is
already fixed; `ValueError` if there are fewer data points than missing
parameters; otherwise hands off to the least-squares fit with initial guesses
taken from `p0` (note `if p0:` — an absent *or empty* dict falls back to the
default guess of 1.0 per missing parameter). -/
def GrowthModel.fit (m : GrowthModel) (p0 : Option (List (String × ℚ))) : FitResult :=
  if m.provided_parameters.length = m.model_parameters.length then
    .unchanged m
  else if m.data_points.length < m.missing_parameters.length then
    .failure (.valueError ("Not enough data points to fit the model. Need at least "
      ++ toString m.missing_parameters.length ++ ", got " ++ toString m.data_points.length ++ "."))
  else
    match p0 with
    | some d =>
      if d.isEmpty then
        .startFit m (List.replicate m.missing_parameters.length 1)
      else
        match lookupGuesses d m.missing_parameters with
        | some guesses => .startFit m guesses
        | none => .failure (.keyError "initial guess missing for a parameter")
    | none => .startFit m (List.replicate m.missing_parameters.length 1)

/-- Constructor `LinearGrowth(m=..., c=...)`: the linear growth model, with its two curve
parameters `m` (slope) and `c` (offset) and no data points yet. -/
def LinearGrowth.make (m c : Option ℚ) : GrowthModel :=
  ⟨[("m", m), ("c", c)], []⟩

/-- Curve `LinearGrowth.function`: `f(x) = m * x + c`. -/
def LinearGrowth.function : Int → (String → ℚ) → ℚ :=
  fun x ps => ps "m" * (x : ℚ) + ps "c"

/-- Fields the `LogisticGrowth` class declares for its alternate
parameterisation: `logistic_growth_rate`, `carrying_capacity`, `midpoint_year`
(a `check_overspecification` validator would require exactly two of the three —
unreachable, see `LogisticGrowth.make`). -/
structure LogisticGrowthModel where
  logistic_growth_rate : Option ℚ
  carrying_capacity : Option ℚ
  midpoint_year : Option Int
  deriving DecidableEq, Repr

/-- Construction of `LogisticGrowth(...)`: `GrowthModel.function` is declared
`@abstractmethod` and `LogisticGrowth` never implements it (it only overrides
`project`); pydantic's `ModelMetaclass` derives from `ABCMeta`, so *every*
instantiation raises `TypeError` in `object.__new__` — before field validation
and before the `check_overspecification` model validator could run.  The keyword
arguments, known fields or not, are never inspected. -/
def LogisticGrowth.make (_logistic_growth_rate _carrying_capacity : Option ℚ)
    (_midpoint_year : Option Int) : Except PyError LogisticGrowthModel :=
  .error (.typeError
    "Can't instantiate abstract class LogisticGrowth with abstract method function")

/-- The logistic closed form used by `LogisticGrowth.project`
(`projected = L / (1 + np.exp(-r * (to_year - t0)))`). -/
noncomputable def logisticCurve (L r t0 t : ℝ) : ℝ :=
  L / (1 + Real.exp (-r * (t - t0)))

/-! ### Collection projection policy (`src/technologydata/technology_collection.py`)

The `keep_remaining` fill-policy dispatch at the head of
`TechnologyCollection.project`.  The value assigned to a parameter name is either
a growth model or the `"NaN"` placeholder sentinel. -/

/-- A value of the `parameters` mapping in `TechnologyCollection.project`. -/
inductive AssignedModel where
  | growth (g : GrowthModel)
  | nanPlaceholder
  deriving DecidableEq, Repr

/-- The Python argument `keep_remaining: bool | str`. -/
def KeepRemaining : Type := Bool ⊕ String

instance : DecidableEq KeepRemaining := by
  unfold KeepRemaining
  infer_instance

/-- The declared default of the `keep_remaining` argument. -/
def keepRemainingDefault : KeepRemaining := Sum.inr "closest"

/-- Python truthiness of a `bool | str` value (`not keep_remaining`). -/
def krFalsy : KeepRemaining → Bool
  | Sum.inl b => !b
  | Sum.inr s => s.isEmpty

/-- The `keep_remaining` dispatch in `TechnologyCollection.project`: for `"mean"`
every parameter of the collection without an assigned model gets a degenerate
`LinearGrowth(m=0)`; for `"NaN"` it gets the placeholder sentinel; a falsy value
leaves the mapping untouched; `"closest"` raises `NotImplementedError`; any other
truthy value silently falls through.  `allParams` is the set of parameter names
occurring in the collection's technologies, in iteration order. -/
def projectPolicy (allParams : List String) (parameters : List (String × AssignedModel))
    (keep_remaining : KeepRemaining) : Except PyError (List (String × AssignedModel)) :=
  if keep_remaining = Sum.inr "NaN" ∨ keep_remaining = Sum.inr "mean" then
    let remaining := allParams.filter (fun p => !(parameters.map Prod.fst).contains p)
    if keep_remaining = Sum.inr "mean" then
      .ok (parameters ++ remaining.map (fun p => (p, .growth (LinearGrowth.make (some 0) none))))
    else
      .ok (parameters ++ remaining.map (fun p => (p, .nanPlaceholder)))
  else if krFalsy keep_remaining then
    .ok parameters
  else if keep_remaining = Sum.inr "closest" then
    .error (.notImplementedError "'closest' option not yet implemented.")
  else
    .ok parameters

/-- Entry of `TechnologyCollection.project`: validate the mutually exclusive
`parameters` vs `parameter`+`model` arguments, then run the fill-policy dispatch. -/
def projectEntry (allParams : List String) (parameter : Option String)
    (model : Option GrowthModel) (parameters : Option (List (String × AssignedModel)))
    (keep_remaining : KeepRemaining) : Except PyError (List (String × AssignedModel)) :=
  match parameters with
  | some ps => projectPolicy allParams ps keep_remaining
  | none =>
    match parameter, model with
    | some pname, some g =>
      if pname.isEmpty then
        .error (.valueError "(`parameters`) and (`parameter` and `model`) are mutually exclusive. At least one must be provided.")
      else
        projectPolicy allParams [(pname, .growth g)] keep_remaining
    | _, _ =>
      .error (.valueError "(`parameters`) and (`parameter` and `model`) are mutually exclusive. At least one must be provided.")


/-- Whether an embedded fallible computation succeeded (no exception raised). -/
def isOkE {ε α : Type} : Except ε α → Bool
  | .ok _ => true
  | .error _ => false

/-! Concrete registry entries used in witnesses: the watt family of `ureg` units
(with `kilowatt = 1000 watt`), two currency-year tokens as currency units, the
carriers `H2`/`CH4` from `creg` and the heating values `LHV`/`HHV` from `hvreg`. -/

/-- Unit `ureg.Unit("watt")`. -/
def wattUnit : PintUnit := ⟨1, [("power", 1)], [("watt", 1)]⟩

/-- Unit `ureg.Unit("kilowatt")`. -/
def kilowattUnit : PintUnit := ⟨1000, [("power", 1)], [("kilowatt", 1)]⟩

/-- Unit `ureg.Unit("USD_2020 / kilowatt")` (the currency token is its own dimension;
its placeholder conversion factor is never consulted by `to`). -/
def usd2020PerKilowatt : PintUnit :=
  ⟨1, [("currency", 1), ("power", -1)], [("USD_2020", 1), ("kilowatt", -1)]⟩

/-- Unit `ureg.Unit("EUR_2025 / kilowatt")`. -/
def eur2025PerKilowatt : PintUnit :=
  ⟨1, [("currency", 1), ("power", -1)], [("EUR_2025", 1), ("kilowatt", -1)]⟩

/-- Carrier `creg.Unit("H2")`. -/
def h2Carrier : CarrierUnit := [("H2", 1)]

/-- Carrier `creg.Unit("CH4")`. -/
def ch4Carrier : CarrierUnit := [("CH4", 1)]

/-- Heating value `hvreg.Unit("LHV")`. -/
def lhvHeatingValue : HeatingValueUnit := [("LHV", 1)]

/-- Heating value `hvreg.Unit("HHV")`. -/
def hhvHeatingValue : HeatingValueUnit := [("HHV", 1)]

/-! ### Claim theorems -/

/-- Helper: if every model parameter is provided, none is missing. -/
theorem provided_length_eq_imp_missing_nil (m : GrowthModel)
    (h : m.provided_parameters.length = m.model_parameters.length) :
    m.missing_parameters = [] := by
  have hlen : (m.params.filter (fun p => p.2.isSome)).length = m.params.length := by
    unfold GrowthModel.provided_parameters GrowthModel.model_parameters at h
    simpa using h
  have hfilter : m.params.filter (fun p => p.2.isSome) = m.params :=
    List.filter_eq_self.mpr (List.filter_length_eq_length.mp hlen)
  unfold GrowthModel.missing_parameters
  apply List.filter_eq_nil_iff.mpr
  intro a ha
  unfold GrowthModel.provided_parameters
  rw [hfilter]
  unfold GrowthModel.model_parameters at ha
  simpa using ha

/-- C4. `GrowthModel.project(x)` raises `ValueError` naming the missing
parameters whenever at least one model parameter is still unresolved; once all
parameters are resolved it evaluates the model's closed-form function at `x` with
the resolved parameter set — a pure, deterministic computation. -/
theorem growthModel_project_spec (f : Int → (String → ℚ) → ℚ) (m : GrowthModel) (x : Int) :
    (m.missing_parameters ≠ [] →
      GrowthModel.project f m x = .error (missingParamsError m.missing_parameters))
    ∧ (m.missing_parameters = [] →
      GrowthModel.project f m x = .ok (f x m.resolved)) := by
  constructor
  · intro h
    have : m.missing_parameters.length > 0 := List.length_pos.mpr h
    simp [GrowthModel.project, this]
  · intro h
    simp [GrowthModel.project, h]

/-- Witness for C4: a `LinearGrowth` with slope still free fails naming `m`
(`f(x) = m*x + c`); with `m = 2`, `c = 1` fully provided, `project(10) = 21`. -/
theorem growthModel_project_spec_witness :
    GrowthModel.project LinearGrowth.function (LinearGrowth.make none (some 1)) 10
      = .error (missingParamsError ["m"])
    ∧ GrowthModel.project LinearGrowth.function (LinearGrowth.make (some 2) (some 1)) 10
      = .ok 21 := by
  constructor
  · have h := (growthModel_project_spec LinearGrowth.function
      (LinearGrowth.make none (some 1)) 10).1 (by decide)
    rw [h]
    rfl
  · have h := (growthModel_project_spec LinearGrowth.function
      (LinearGrowth.make (some 2) (some 1)) 10).2 (by decide)
    rw [h]
    congr 1
    simp [LinearGrowth.function, GrowthModel.resolved, LinearGrowth.make, List.lookup]
    norm_num

/-- C5. `GrowthModel.fit(p0)` is a no-op returning the model unchanged when
all model parameters are already provided; it raises `ValueError` when there are
fewer data points than missing parameters; and with `p0` not given the initial
guess defaults to `1.0` per missing parameter. -/
theorem growthModel_fit_spec (m : GrowthModel) (p0 : Option (List (String × ℚ))) :
    (m.provided_parameters.length = m.model_parameters.length →
      m.fit p0 = .unchanged m)
    ∧ (m.data_points.length < m.missing_parameters.length →
      m.fit p0 = .failure (.valueError ("Not enough data points to fit the model. Need at least "
        ++ toString m.missing_parameters.length ++ ", got " ++ toString m.data_points.length ++ ".")))
    ∧ (m.provided_parameters.length ≠ m.model_parameters.length →
      ¬ m.data_points.length < m.missing_parameters.length →
      m.fit none = .startFit m (List.replicate m.missing_parameters.length 1)) := by
  refine ⟨?_, ?_, ?_⟩
  · intro h
    simp [GrowthModel.fit, h]
  · intro h
    have hne : m.provided_parameters.length ≠ m.model_parameters.length := by
      intro heq
      rw [provided_length_eq_imp_missing_nil m heq] at h
      simp at h
    simp [GrowthModel.fit, hne, h]
  · intro h1 h2
    simp [GrowthModel.fit, h1, h2]

/-- Witness for C5: a fully fixed `LinearGrowth(m=2, c=1)` no-ops even with a
`p0`; a fully free one with a single data point fails; one with only `m` free and
one data point starts the fit with the default guess `[1.0]`. -/
theorem growthModel_fit_spec_witness :
    GrowthModel.fit ⟨[("m", some 2), ("c", some 1)], []⟩ (some [("m", 5)])
      = .unchanged ⟨[("m", some 2), ("c", some 1)], []⟩
    ∧ GrowthModel.fit ⟨[("m", none), ("c", none)], [(2020, 3)]⟩ none
      = .failure (.valueError "Not enough data points to fit the model. Need at least 2, got 1.")
    ∧ GrowthModel.fit ⟨[("m", none), ("c", some 1)], [(2020, 3)]⟩ none
      = .startFit ⟨[("m", none), ("c", some 1)], [(2020, 3)]⟩ [1] := by
  refine ⟨?_, ?_, ?_⟩
  · exact (growthModel_fit_spec ⟨[("m", some 2), ("c", some 1)], []⟩ (some [("m", 5)])).1
      (by decide)
  · have h := (growthModel_fit_spec ⟨[("m", none), ("c", none)], [(2020, 3)]⟩ none).2.1
      (by decide)
    rw [h]
    rfl
  · have h := (growthModel_fit_spec ⟨[("m", none), ("c", some 1)], [(2020, 3)]⟩ none).2.2
      (by decide) (by decide)
    rw [h]
    rfl

/-- C6. Constructing `Parameter(magnitude=m, carrier=C, heating_value=H)`
(with otherwise valid arguments, in particular no units string to canonicalise)
fails — with the dedicated `ValueError` — if and only if `H` is set and `C` is
not; consequently every successfully constructed Parameter with a heating value
set also has a carrier set. -/
theorem parameter_construction_heating_value_iff (validCodes : List String) (m : ℚ)
    (C : Option CarrierUnit) (H : Option HeatingValueUnit) :
    (Parameter.make validCodes m none C H = .error heatingValueWithoutCarrierError
      ↔ (H.isSome ∧ C = none))
    ∧ ∀ p, Parameter.make validCodes m none C H = .ok p →
        p.heating_value.isSome → p.carrier.isSome := by
  constructor
  · cases C <;> cases H <;>
      simp [Parameter.make, Parameter.updateCheck]
  · intro p hp
    cases C <;> cases H <;>
      simp [Parameter.make, Parameter.updateCheck] at hp <;>
      (subst hp; simp)

/-- Witness for C6: a heating value without a carrier is rejected. -/
theorem parameter_construction_heating_value_iff_witness :
    Parameter.make [] 5 none none (some [("LHV", 1)])
      = .error heatingValueWithoutCarrierError :=
  (parameter_construction_heating_value_iff [] 5 none (some [("LHV", 1)])).1.mpr (by decide)

/-- C8 counterexample. The spec's construction `LogisticGrowth(L=10, k=1, x0=0)`
does not yield a model at all: `LogisticGrowth` leaves the abstract
`GrowthModel.function` unimplemented, so ABCMeta enforcement raises `TypeError`
at instantiation, before pydantic inspects any argument (`L`, `k`, `x0` are not
fields of the class either).  `.project(0)` is never reached, refuting the
claimed equality `project(0) == 5.0` at this very input. -/
theorem logisticGrowth_L_k_x0_counterexample :
    LogisticGrowth.make none none none = .error (.typeError
      "Can't instantiate abstract class LogisticGrowth with abstract method function") := rfl

/-- C8 amended. `LogisticGrowth(L=10, k=1, x0=0)` raises `TypeError` at
construction (the class is abstract: `function` is never implemented), so the
example's `project(0)` cannot run; what is true of the code is only the formula
property: the logistic closed form evaluated at growth_models.py line 403,
`f(t) = L / (1 + exp(-r*(t - t0)))`, satisfies the midpoint identity
`f(t0) = L/2`, and yields exactly `5` at `L=10, r=1, t0=0, t=0` — where `L`,
`r`, `t0` are the values the formula is called with after `project`'s derivation
cascade (which may overwrite the user-supplied carrying capacity), not
necessarily the constructor arguments. -/
theorem logisticCurve_midpoint (L r t0 : ℝ) :
    LogisticGrowth.make none none none = .error (.typeError
      "Can't instantiate abstract class LogisticGrowth with abstract method function")
    ∧ logisticCurve L r t0 t0 = L / 2
    ∧ logisticCurve 10 1 0 0 = 5 := by
  have key : ∀ (a b c : ℝ), logisticCurve a b c c = a / 2 := by
    intro a b c
    rw [logisticCurve, sub_self, mul_zero, Real.exp_zero]
    norm_num
  refine ⟨rfl, key L r t0, ?_⟩
  rw [key 10 1 0]
  norm_num

/-- C9. In `TechnologyCollection.project`, the nearest-year fill policy
(`keep_remaining="closest"`, the declared default of the argument) fails loudly
with `NotImplementedError`; the `"mean"` policy fills every parameter of the
collection without an assigned model with a degenerate zero-slope linear model
(`LinearGrowth(m=0)`). -/
theorem technologyCollection_project_policy (allParams : List String)
    (ps : List (String × AssignedModel)) :
    keepRemainingDefault = Sum.inr "closest"
    ∧ projectEntry allParams none none (some ps) keepRemainingDefault
        = .error (.notImplementedError "'closest' option not yet implemented.")
    ∧ projectEntry allParams none none (some ps) (Sum.inr "mean")
        = .ok (ps ++ (allParams.filter (fun p => !(ps.map Prod.fst).contains p)).map
            (fun p => (p, AssignedModel.growth (LinearGrowth.make (some 0) none)))) := by
  refine ⟨rfl, ?_, ?_⟩
  · show projectPolicy allParams ps (Sum.inr "closest") = _
    unfold projectPolicy
    rw [if_neg (by decide), if_neg (by decide), if_pos rfl]
  · show projectPolicy allParams ps (Sum.inr "mean") = _
    unfold projectPolicy
    rw [if_pos (Or.inr rfl), if_pos rfl]

/-- C7. `extract_currency_units` returns the currency tokens matched by the
word-bounded pattern `[A-Z]{3}_[0-9]{4}` in order of appearance — in particular
`"EUR_2015/USD_2020"` yields both tokens in order — and raises a `ValueError`
listing exactly the currency-shaped tokens whose 3-letter code is not in the
authoritative set — in particular `"XYZ_2020/kW"` fails with `["XYZ_2020"]`. -/
theorem extract_currency_units_spec (validCodes : List String)
    (h1 : "EUR" ∈ validCodes) (h2 : "USD" ∈ validCodes) (h3 : "XYZ" ∉ validCodes) :
    extract_currency_units validCodes "EUR_2015/USD_2020" = .ok ["EUR_2015", "USD_2020"]
    ∧ extract_currency_units validCodes "XYZ_2020/kW" = .error ["XYZ_2020"]
    ∧ (∀ u r, extract_currency_units validCodes u = .ok r →
        r = (currencyFindall u).map currencyToken)
    ∧ (∀ u e, extract_currency_units validCodes u = .error e →
        e = ((currencyFindall u).filter (fun m => !validCodes.contains m.1)).map currencyToken
        ∧ e ≠ []) := by
  have hfind1 : currencyFindall "EUR_2015/USD_2020" = [("EUR", "2015"), ("USD", "2020")] := by
    decide
  have hfind2 : currencyFindall "XYZ_2020/kW" = [("XYZ", "2020")] := by
    decide
  refine ⟨?_, ?_, ?_, ?_⟩
  · rw [extract_currency_units, hfind1]
    simp [h1, h2, currencyToken]
  · rw [extract_currency_units, hfind2]
    simp [h3, currencyToken]
  · intro u r hr
    rw [extract_currency_units] at hr
    by_cases hEmpty : (currencyFindall u).isEmpty
    · rw [if_pos hEmpty] at hr
      cases hr
      rw [List.isEmpty_iff.mp hEmpty]
      rfl
    · rw [if_neg hEmpty] at hr
      split at hr
      · cases hr
        rfl
      · cases hr
  · intro u e he
    rw [extract_currency_units] at he
    by_cases hEmpty : (currencyFindall u).isEmpty
    · rw [if_pos hEmpty] at he
      cases he
    · rw [if_neg hEmpty] at he
      split at he
      · cases he
      · rename_i hInv
        cases he
        refine ⟨rfl, ?_⟩
        intro hnil
        exact hInv (by simpa [List.isEmpty_iff] using congrArg List.isEmpty hnil)

/-- Witness for C7: the two concrete examples against a concrete authoritative
code set. -/
theorem extract_currency_units_spec_witness :
    extract_currency_units ["EUR", "USD"] "EUR_2015/USD_2020" = .ok ["EUR_2015", "USD_2020"]
    ∧ extract_currency_units ["EUR", "USD"] "XYZ_2020/kW" = .error ["XYZ_2020"] :=
  ⟨(extract_currency_units_spec ["EUR", "USD"] (by decide) (by decide) (by decide)).1,
   (extract_currency_units_spec ["EUR", "USD"] (by decide) (by decide) (by decide)).2.1⟩


/-- Helper: a successful currency extraction makes `ensure_currency_is_unit` a no-op. -/
theorem ensureCurrencyIsUnit_ok {codes : List String} {u : PintUnit}
    (h : isOkE (extract_currency_units codes (renderUnit u)) = true) :
    ensureCurrencyIsUnit codes u = .ok () := by
  unfold ensureCurrencyIsUnit
  cases hE : extract_currency_units codes (renderUnit u) with
  | error e =>
    rw [hE] at h
    simp [isOkE] at h
  | ok t => rfl

/-- Helper: construction succeeds when the units' currency tokens validate and the
heating value comes with a carrier. -/
theorem parameter_make_ok {codes : List String} {m : ℚ} {u : PintUnit}
    {c : Option CarrierUnit} {h : Option HeatingValueUnit}
    (hu : isOkE (extract_currency_units codes (renderUnit u)) = true)
    (hvc : h.isSome → c.isSome) :
    Parameter.make codes m (some u) c h = .ok ⟨m, some u, c, h⟩ := by
  unfold Parameter.make
  simp only [ensureCurrencyIsUnit_ok hu]
  unfold Parameter.updateCheck
  rw [if_neg]
  intro hcontra
  rcases Bool.and_eq_true_iff.mp hcontra with ⟨hh, hc⟩
  rw [hvc hh] at hc
  simp at hc

/-- C1. `Parameter.__add__`/`__sub__` raise `ValueError` unless the two
operands have exactly the same carrier and the same heating value; when both
match, the result keeps the shared carrier and heating value and its magnitude is
the unit-consistent numeric sum (resp. difference): the right operand's magnitude
converted into the left operand's units and added (resp. subtracted). -/
theorem parameter_add_sub_compatibility (codes : List String) (p1 p2 : Parameter)
    (hval : p1.Valid)
    (hu : isOkE (extract_currency_units codes (renderUnit p1.pintQuantity.units)) = true)
    (hdims : p1.pintQuantity.units.dims = p2.pintQuantity.units.dims) :
    ((p1.carrier ≠ p2.carrier ∨ p1.heating_value ≠ p2.heating_value) →
      (∃ msg, Parameter.add codes p1 p2 = .error (.valueError msg))
      ∧ (∃ msg, Parameter.sub codes p1 p2 = .error (.valueError msg)))
    ∧ (p1.carrier = p2.carrier → p1.heating_value = p2.heating_value →
      Parameter.add codes p1 p2 = .ok
        ⟨p1.magnitude + p2.magnitude * p2.pintQuantity.units.factor / p1.pintQuantity.units.factor,
         some p1.pintQuantity.units, p1.carrier, p1.heating_value⟩
      ∧ Parameter.sub codes p1 p2 = .ok
        ⟨p1.magnitude - p2.magnitude * p2.pintQuantity.units.factor / p1.pintQuantity.units.factor,
         some p1.pintQuantity.units, p1.carrier, p1.heating_value⟩) := by
  constructor
  · intro hmis
    have hcc : ∃ msg, p1.checkCompatibility p2 = .error (.valueError msg) := by
      unfold Parameter.checkCompatibility
      by_cases hc : p1.carrier = p2.carrier
      · have hh : p1.heating_value ≠ p2.heating_value := by
          rcases hmis with h | h
          · exact absurd hc h
          · exact h
        rw [if_neg (by simpa using hc), if_pos hh]
        exact ⟨_, rfl⟩
      · rw [if_pos hc]
        exact ⟨_, rfl⟩
    obtain ⟨msg, hcc⟩ := hcc
    constructor
    · refine ⟨msg, ?_⟩
      unfold Parameter.add
      rw [hcc]
    · refine ⟨msg, ?_⟩
      unfold Parameter.sub
      rw [hcc]
  · intro hc hh
    have hcc : p1.checkCompatibility p2 = .ok () := by
      unfold Parameter.checkCompatibility
      rw [if_neg (by simpa using hc), if_neg (by simpa using hh)]
    constructor
    · unfold Parameter.add
      rw [hcc]
      unfold PintQuantity.add
      rw [if_pos hdims]
      exact parameter_make_ok hu hval
    · unfold Parameter.sub
      rw [hcc]
      unfold PintQuantity.sub
      rw [if_pos hdims]
      exact parameter_make_ok hu hval

/-- Witness for C1: for matching carrier `H2` and heating value `LHV`, adding
`2 kW` to `3 W` gives `2003 W` and subtracting gives `-1997 W` (unit-consistent
combination); with carrier `CH4` on the right operand, `+` and `-` both raise
`ValueError`. -/
theorem parameter_add_sub_compatibility_witness :
    Parameter.add [] ⟨3, some wattUnit, some h2Carrier, some lhvHeatingValue⟩
        ⟨2, some kilowattUnit, some h2Carrier, some lhvHeatingValue⟩
      = .ok ⟨2003, some wattUnit, some h2Carrier, some lhvHeatingValue⟩
    ∧ Parameter.sub [] ⟨3, some wattUnit, some h2Carrier, some lhvHeatingValue⟩
        ⟨2, some kilowattUnit, some h2Carrier, some lhvHeatingValue⟩
      = .ok ⟨-1997, some wattUnit, some h2Carrier, some lhvHeatingValue⟩
    ∧ (∃ msg, Parameter.add [] ⟨3, some wattUnit, some h2Carrier, some lhvHeatingValue⟩
        ⟨2, some kilowattUnit, some ch4Carrier, some lhvHeatingValue⟩
      = .error (.valueError msg))
    ∧ (∃ msg, Parameter.sub [] ⟨3, some wattUnit, some h2Carrier, some lhvHeatingValue⟩
        ⟨2, some kilowattUnit, some ch4Carrier, some lhvHeatingValue⟩
      = .error (.valueError msg)) := by
  have hmatch := (parameter_add_sub_compatibility []
    ⟨3, some wattUnit, some h2Carrier, some lhvHeatingValue⟩
    ⟨2, some kilowattUnit, some h2Carrier, some lhvHeatingValue⟩
    (by decide) (by decide) (by decide)).2 rfl rfl
  have hmis := (parameter_add_sub_compatibility []
    ⟨3, some wattUnit, some h2Carrier, some lhvHeatingValue⟩
    ⟨2, some kilowattUnit, some ch4Carrier, some lhvHeatingValue⟩
    (by decide) (by decide) (by decide)).1 (Or.inl (by decide))
  refine ⟨?_, ?_, hmis.1, hmis.2⟩
  · rw [hmatch.1]
    norm_num [Parameter.pintQuantity, wattUnit, kilowattUnit, Option.getD]
  · rw [hmatch.2]
    norm_num [Parameter.pintQuantity, wattUnit, kilowattUnit, Option.getD]

/-- Helper: reduction of `Parameter.mul` when both heating values and both
carriers are set. -/
theorem parameter_mul_eq_make {codes : List String} {p1 p2 : Parameter}
    {c1 c2 : CarrierUnit} {hv : HeatingValueUnit}
    (hc1 : p1.carrier = some c1) (hc2 : p2.carrier = some c2)
    (hh1 : p1.heating_value = some hv) (hh2 : p2.heating_value = some hv) :
    Parameter.mul codes p1 p2 =
      Parameter.make codes (p1.magnitude * p2.magnitude)
        (some (p1.pintQuantity.mul p2.pintQuantity).units)
        (some (atomsMul c1 c2)) (some (atomsMul hv hv)) := by
  unfold Parameter.mul
  rw [if_neg (by rw [hh1, hh2]; exact fun h => h rfl)]
  simp only [hc1, hc2, hh1, hh2]
  rfl

/-- Helper: reduction of `Parameter.div` when both heating values and both
carriers are set. -/
theorem parameter_div_eq_make {codes : List String} {p1 p2 : Parameter}
    {c1 c2 : CarrierUnit} {hv : HeatingValueUnit}
    (hc1 : p1.carrier = some c1) (hc2 : p2.carrier = some c2)
    (hh1 : p1.heating_value = some hv) (hh2 : p2.heating_value = some hv) :
    Parameter.div codes p1 p2 =
      Parameter.make codes (p1.magnitude / p2.magnitude)
        (some (p1.pintQuantity.div p2.pintQuantity).units)
        (some (atomsDiv c1 c2)) (some (atomsDiv hv hv)) := by
  unfold Parameter.div
  rw [if_neg (by rw [hh1, hh2]; exact fun h => h rfl)]
  simp only [hc1, hc2, hh1, hh2]
  rfl

/-- Helper: multiplying two Parameters with both heating values unset raises
`TypeError` (Python `None * None`). -/
theorem parameter_mul_none_hv {codes : List String} {p1 p2 : Parameter}
    (hh1 : p1.heating_value = none) (hh2 : p2.heating_value = none) :
    Parameter.mul codes p1 p2
      = .error (.typeError "unsupported operand type(s) for *: NoneType") := by
  unfold Parameter.mul
  rw [if_neg (by rw [hh1, hh2]; exact fun h => h rfl)]
  simp only [hh1, hh2]

/-- Helper: dividing two Parameters with both heating values unset raises
`TypeError` (Python `None / None`). -/
theorem parameter_div_none_hv {codes : List String} {p1 p2 : Parameter}
    (hh1 : p1.heating_value = none) (hh2 : p2.heating_value = none) :
    Parameter.div codes p1 p2
      = .error (.typeError "unsupported operand type(s) for /: NoneType") := by
  unfold Parameter.div
  rw [if_neg (by rw [hh1, hh2]; exact fun h => h rfl)]
  simp only [hh1, hh2]

/-- Helper: `Parameter.make` on set units reduces through the currency check. -/
theorem parameter_make_some_eq (codes : List String) (m : ℚ) (u : PintUnit)
    (c : Option CarrierUnit) (h : Option HeatingValueUnit) :
    Parameter.make codes m (some u) c h =
      match ensureCurrencyIsUnit codes u with
      | .error e => .error e
      | .ok _ => Parameter.updateCheck m (some u) c h := rfl

/-- Helper: a successful `Parameter.make` returns exactly the given fields. -/
theorem parameter_make_ok_inv {codes : List String} {m : ℚ} {u : PintUnit}
    {c : Option CarrierUnit} {h : Option HeatingValueUnit} {p : Parameter}
    (hp : Parameter.make codes m (some u) c h = .ok p) :
    p = ⟨m, some u, c, h⟩ := by
  rw [parameter_make_some_eq] at hp
  cases hE : ensureCurrencyIsUnit codes u with
  | error e =>
    rw [hE] at hp
    cases hp
  | ok v =>
    rw [hE] at hp
    unfold Parameter.updateCheck at hp
    by_cases hcond : (h.isSome && !c.isSome) = true
    · rw [if_pos hcond] at hp
      cases hp
    · rw [if_neg hcond] at hp
      exact (Except.ok.inj hp).symm

/-- C2. `Parameter.__mul__`/`__truediv__` raise `ValueError` exactly when the
heating values of the operands differ (matching heating values never produce a
`ValueError`); the carriers may differ, and for operands with set heating values
the operation succeeds with the result's carrier the multiplicative
(resp. divisive) combination of the two carriers into a compound carrier
expression. -/
theorem parameter_mul_div_heating_value_gate (codes : List String) (p1 p2 : Parameter)
    (h1 : p1.Valid) (h2 : p2.Valid)
    (hOkM : isOkE (extract_currency_units codes
      (renderUnit (p1.pintQuantity.mul p2.pintQuantity).units)) = true)
    (hOkD : isOkE (extract_currency_units codes
      (renderUnit (p1.pintQuantity.div p2.pintQuantity).units)) = true) :
    ((∃ msg, Parameter.mul codes p1 p2 = .error (.valueError msg))
      ↔ p1.heating_value ≠ p2.heating_value)
    ∧ ((∃ msg, Parameter.div codes p1 p2 = .error (.valueError msg))
      ↔ p1.heating_value ≠ p2.heating_value)
    ∧ (∀ c1 c2 hv, p1.carrier = some c1 → p2.carrier = some c2 →
        p1.heating_value = some hv → p2.heating_value = some hv →
        Parameter.mul codes p1 p2 = .ok ⟨p1.magnitude * p2.magnitude,
          some (p1.pintQuantity.mul p2.pintQuantity).units,
          some (atomsMul c1 c2), some (atomsMul hv hv)⟩
        ∧ Parameter.div codes p1 p2 = .ok ⟨p1.magnitude / p2.magnitude,
          some (p1.pintQuantity.div p2.pintQuantity).units,
          some (atomsDiv c1 c2), some (atomsDiv hv hv)⟩) := by
  have carriers : ∀ hv, p1.heating_value = some hv → p2.heating_value = some hv →
      ∃ c1 c2, p1.carrier = some c1 ∧ p2.carrier = some c2 := by
    intro hv hp1 hp2
    obtain ⟨c1, hc1⟩ := Option.isSome_iff_exists.mp (h1 (by rw [hp1]; rfl))
    obtain ⟨c2, hc2⟩ := Option.isSome_iff_exists.mp (h2 (by rw [hp2]; rfl))
    exact ⟨c1, c2, hc1, hc2⟩
  refine ⟨⟨?_, ?_⟩, ⟨?_, ?_⟩, ?_⟩
  · rintro ⟨msg, hmsg⟩ heq
    cases hp1 : p1.heating_value with
    | none =>
      have hp2 : p2.heating_value = none := by rw [← heq, hp1]
      rw [parameter_mul_none_hv hp1 hp2] at hmsg
      simp at hmsg
    | some hv =>
      have hp2 : p2.heating_value = some hv := by rw [← heq, hp1]
      obtain ⟨c1, c2, hc1, hc2⟩ := carriers hv hp1 hp2
      rw [parameter_mul_eq_make hc1 hc2 hp1 hp2,
        parameter_make_ok hOkM (fun _ => by simp)] at hmsg
      simp at hmsg
  · intro hne
    unfold Parameter.mul
    rw [if_pos hne]
    exact ⟨_, rfl⟩
  · rintro ⟨msg, hmsg⟩ heq
    cases hp1 : p1.heating_value with
    | none =>
      have hp2 : p2.heating_value = none := by rw [← heq, hp1]
      rw [parameter_div_none_hv hp1 hp2] at hmsg
      simp at hmsg
    | some hv =>
      have hp2 : p2.heating_value = some hv := by rw [← heq, hp1]
      obtain ⟨c1, c2, hc1, hc2⟩ := carriers hv hp1 hp2
      rw [parameter_div_eq_make hc1 hc2 hp1 hp2,
        parameter_make_ok hOkD (fun _ => by simp)] at hmsg
      simp at hmsg
  · intro hne
    unfold Parameter.div
    rw [if_pos hne]
    exact ⟨_, rfl⟩
  · intro c1 c2 hv hc1 hc2 hh1 hh2
    constructor
    · rw [parameter_mul_eq_make hc1 hc2 hh1 hh2]
      exact parameter_make_ok hOkM (fun _ => by simp)
    · rw [parameter_div_eq_make hc1 hc2 hh1 hh2]
      exact parameter_make_ok hOkD (fun _ => by simp)

/-- Witness for C2: `H2`-carrier times/over `CH4`-carrier with matching `LHV`
heating values succeeds with compound carriers `CH4 * H2` resp. `H2 / CH4`;
mismatched heating values (`LHV` vs `HHV`) raise `ValueError`. -/
theorem parameter_mul_div_heating_value_gate_witness :
    Parameter.mul [] ⟨3, some wattUnit, some h2Carrier, some lhvHeatingValue⟩
        ⟨2, some wattUnit, some ch4Carrier, some lhvHeatingValue⟩
      = .ok ⟨6, some ⟨1, [("power", 2)], [("watt", 2)]⟩,
          some [("CH4", 1), ("H2", 1)], some [("LHV", 2)]⟩
    ∧ Parameter.div [] ⟨3, some wattUnit, some h2Carrier, some lhvHeatingValue⟩
        ⟨2, some wattUnit, some ch4Carrier, some lhvHeatingValue⟩
      = .ok ⟨3 / 2, some ⟨1, [], []⟩, some [("CH4", -1), ("H2", 1)], some []⟩
    ∧ (∃ msg, Parameter.mul [] ⟨3, some wattUnit, some h2Carrier, some lhvHeatingValue⟩
        ⟨2, some wattUnit, some h2Carrier, some hhvHeatingValue⟩
      = .error (.valueError msg)) := by
  have hok := (parameter_mul_div_heating_value_gate []
    ⟨3, some wattUnit, some h2Carrier, some lhvHeatingValue⟩
    ⟨2, some wattUnit, some ch4Carrier, some lhvHeatingValue⟩
    (by decide) (by decide) (by decide) (by decide)).2.2
    h2Carrier ch4Carrier lhvHeatingValue rfl rfl rfl rfl
  have hbad := (parameter_mul_div_heating_value_gate []
    ⟨3, some wattUnit, some h2Carrier, some lhvHeatingValue⟩
    ⟨2, some wattUnit, some h2Carrier, some hhvHeatingValue⟩
    (by decide) (by decide) (by decide) (by decide)).1.mpr (by decide)
  refine ⟨?_, ?_, hbad⟩
  · rw [hok.1]
    simp only [Except.ok.injEq, Parameter.mk.injEq, Option.some.injEq]
    refine ⟨by norm_num, ?_, by decide, by decide⟩
    simp only [Parameter.pintQuantity, Option.getD, PintQuantity.mul, wattUnit,
      PintUnit.mk.injEq]
    refine ⟨by norm_num, by decide, by decide⟩
  · rw [hok.2]
    simp only [Except.ok.injEq, Parameter.mk.injEq, Option.some.injEq]
    refine ⟨by norm_num, ?_, by decide, by decide⟩
    simp only [Parameter.pintQuantity, Option.getD, PintQuantity.div, wattUnit,
      PintUnit.mk.injEq]
    refine ⟨by norm_num, by decide, by decide⟩

/-- Helper: `Parameter.make` succeeds on arbitrary (possibly absent) units when
any present units' currency tokens validate and the heating value comes with a
carrier. -/
theorem parameter_make_ok_any {codes : List String} {m : ℚ} {units : Option PintUnit}
    {c : Option CarrierUnit} {h : Option HeatingValueUnit}
    (hu : ∀ u, units = some u → isOkE (extract_currency_units codes (renderUnit u)) = true)
    (hvc : h.isSome = true → c.isSome = true) :
    Parameter.make codes m units c h = .ok ⟨m, units, c, h⟩ := by
  cases units with
  | none =>
    unfold Parameter.make Parameter.updateCheck
    rw [if_neg]
    intro hcontra
    rcases Bool.and_eq_true_iff.mp hcontra with ⟨hh, hc⟩
    rw [hvc hh] at hc
    simp at hc
  | some u =>
    exact parameter_make_ok (hu u rfl) hvc

/-- Helper: `@refresh_pint_attributes` is a no-op for a Parameter satisfying the
construction invariant whose units' currency tokens validate. -/
theorem parameter_refresh_ok {codes : List String} {p : Parameter}
    (hval : p.Valid)
    (hok : isOkE (extract_currency_units codes (renderUnit p.pintQuantity.units)) = true) :
    p.refreshPintAttributes codes = .ok () := by
  unfold Parameter.refreshPintAttributes
  rw [parameter_make_ok_any ?_ hval]
  intro u hu
  have : p.pintQuantity.units = u := by
    unfold Parameter.pintQuantity
    rw [hu]
    rfl
  rwa [this] at hok

/-- C3. `Parameter.to(units)` performs physical-unit conversion only: it
fails with `NotImplementedError` whenever the currency-year tokens extracted from
the target units differ from those of the current units, and otherwise converts
the magnitude by the pure physical factor ratio, keeping carrier and heating
value. -/
theorem parameter_to_currency_gate (codes : List String) (p : Parameter)
    (target : PintUnit) (hval : p.Valid) (curToks tgtToks : List String)
    (hcur : extract_currency_units codes (renderUnit p.pintQuantity.units) = .ok curToks)
    (htgt : extract_currency_units codes (renderUnit target) = .ok tgtToks) :
    (curToks ≠ tgtToks →
      Parameter.to codes p target = .error (.notImplementedError
        "Currency conversion is not supported in the `to` method. Use `change_currency` for currency conversions."))
    ∧ (curToks = tgtToks → p.pintQuantity.units.dims = target.dims →
      Parameter.to codes p target = .ok
        ⟨p.magnitude * p.pintQuantity.units.factor / target.factor, some target,
         p.carrier, p.heating_value⟩) := by
  have hok : isOkE (extract_currency_units codes (renderUnit p.pintQuantity.units)) = true := by
    rw [hcur]
    rfl
  have hrefresh := parameter_refresh_ok hval hok
  constructor
  · intro hne
    unfold Parameter.to
    rw [hrefresh, hcur, htgt]
    dsimp only
    rw [if_pos hne]
  · intro heq hdims
    unfold Parameter.to
    rw [hrefresh, hcur, htgt]
    dsimp only
    rw [if_neg (by simp [heq])]
    unfold PintQuantity.convertTo
    rw [if_pos hdims]
    dsimp only
    exact parameter_make_ok (by rw [htgt]; rfl) hval

/-- Witness for C3: the spec's example — a Parameter of `1000 USD_2020/kW` (carrier
`H2`, heating value `LHV`) converted `.to("EUR_2025/kW")` raises, while a plain
power conversion `3 W → kW` succeeds, dividing the magnitude by 1000. -/
theorem parameter_to_currency_gate_witness :
    Parameter.to ["USD", "EUR"]
        ⟨1000, some usd2020PerKilowatt, some h2Carrier, some lhvHeatingValue⟩
        eur2025PerKilowatt
      = .error (.notImplementedError
        "Currency conversion is not supported in the `to` method. Use `change_currency` for currency conversions.")
    ∧ Parameter.to [] ⟨3, some wattUnit, some h2Carrier, some lhvHeatingValue⟩ kilowattUnit
      = .ok ⟨3 / 1000, some kilowattUnit, some h2Carrier, some lhvHeatingValue⟩ := by
  constructor
  · exact (parameter_to_currency_gate ["USD", "EUR"]
      ⟨1000, some usd2020PerKilowatt, some h2Carrier, some lhvHeatingValue⟩
      eur2025PerKilowatt (by decide) ["USD_2020"] ["EUR_2025"]
      (by decide) (by decide)).1 (by decide)
  · have h := (parameter_to_currency_gate []
      ⟨3, some wattUnit, some h2Carrier, some lhvHeatingValue⟩
      kilowattUnit (by decide) [] [] (by decide) (by decide)).2 rfl (by decide)
    rw [h]
    simp only [Except.ok.injEq, Parameter.mk.injEq, Option.some.injEq, and_true, true_and]
    norm_num [Parameter.pintQuantity, Option.getD, wattUnit, kilowattUnit]

/-- C10. When both operands' heating values are `None` (so the heating-value
equality check passes), `__mul__` and `__truediv__` raise `TypeError` combining
the two Python `None`s; consequently multiplication and division only ever
succeed between Parameters that both have a heating value set — and, the carrier
match being what it is, both carriers set and a set carrier on the result. -/
theorem parameter_mul_div_requires_heating_values (codes : List String) (p1 p2 : Parameter) :
    (p1.heating_value = none → p2.heating_value = none →
      Parameter.mul codes p1 p2 = .error (.typeError "unsupported operand type(s) for *: NoneType")
      ∧ Parameter.div codes p1 p2 = .error (.typeError "unsupported operand type(s) for /: NoneType"))
    ∧ (∀ r, Parameter.mul codes p1 p2 = .ok r →
        p1.heating_value.isSome ∧ p2.heating_value.isSome
        ∧ p1.carrier.isSome ∧ p2.carrier.isSome ∧ r.carrier.isSome)
    ∧ (∀ r, Parameter.div codes p1 p2 = .ok r →
        p1.heating_value.isSome ∧ p2.heating_value.isSome
        ∧ p1.carrier.isSome ∧ p2.carrier.isSome ∧ r.carrier.isSome) := by
  refine ⟨fun hh1 hh2 => ⟨parameter_mul_none_hv hh1 hh2, parameter_div_none_hv hh1 hh2⟩, ?_, ?_⟩
  · intro r hr
    unfold Parameter.mul at hr
    by_cases hne : p1.heating_value ≠ p2.heating_value
    · rw [if_pos hne] at hr
      cases hr
    · rw [if_neg hne] at hr
      push_neg at hne
      cases hp1 : p1.heating_value with
      | none =>
        have hp2 : p2.heating_value = none := by rw [← hne, hp1]
        simp only [hp1, hp2] at hr
        cases hr
      | some hv =>
        have hp2 : p2.heating_value = some hv := by rw [← hne, hp1]
        cases hc1 : p1.carrier with
        | none =>
          simp only [hp1, hp2, hc1] at hr
          cases hr
        | some c1 =>
          cases hc2 : p2.carrier with
          | none =>
            simp only [hp1, hp2, hc1, hc2] at hr
            cases hr
          | some c2 =>
            simp only [hp1, hp2, hc1, hc2] at hr
            have := parameter_make_ok_inv hr
            subst this
            simp [hp1, hp2, hc1, hc2]
  · intro r hr
    unfold Parameter.div at hr
    by_cases hne : p1.heating_value ≠ p2.heating_value
    · rw [if_pos hne] at hr
      cases hr
    · rw [if_neg hne] at hr
      push_neg at hne
      cases hp1 : p1.heating_value with
      | none =>
        have hp2 : p2.heating_value = none := by rw [← hne, hp1]
        simp only [hp1, hp2] at hr
        cases hr
      | some hv =>
        have hp2 : p2.heating_value = some hv := by rw [← hne, hp1]
        cases hc1 : p1.carrier with
        | none =>
          simp only [hp1, hp2, hc1] at hr
          cases hr
        | some c1 =>
          cases hc2 : p2.carrier with
          | none =>
            simp only [hp1, hp2, hc1, hc2] at hr
            cases hr
          | some c2 =>
            simp only [hp1, hp2, hc1, hc2] at hr
            have := parameter_make_ok_inv hr
            subst this
            simp [hp1, hp2, hc1, hc2]

/-- Witness for C10: two Parameters with unset heating values (equal, so the
`ValueError` gate passes) still fail to multiply or divide, with `TypeError`. -/
theorem parameter_mul_div_requires_heating_values_witness :
    Parameter.mul [] ⟨3, some wattUnit, some h2Carrier, none⟩ ⟨2, some wattUnit, none, none⟩
      = .error (.typeError "unsupported operand type(s) for *: NoneType")
    ∧ Parameter.div [] ⟨3, some wattUnit, some h2Carrier, none⟩ ⟨2, some wattUnit, none, none⟩
      = .error (.typeError "unsupported operand type(s) for /: NoneType") :=
  (parameter_mul_div_requires_heating_values []
    ⟨3, some wattUnit, some h2Carrier, none⟩ ⟨2, some wattUnit, none, none⟩).1 rfl rfl
